import Mathlib

/-!
Verification of `scrapling/engines/static.py` (the `StaticEngine` façade).

The embedding models Python dictionaries of string keys and string values as
association lists with unique keys kept in insertion order, which matches the
observable behaviour of `dict`: exact-key lookup, in-place value replacement on
assignment to an existing key, append on assignment to a fresh key, and
`dict.update` as a left fold of assignments.

The toolbelt collaborators (`generate_headers`, `generate_convincing_referer`,
`Response`) are code of this repository that is not under `src/`; they are
modelled from the spec where marked.
-/

namespace Scrapling

/-- Model of a Python `dict` of strings: an association list in insertion
order whose keys are unique (the operations below preserve uniqueness). -/
abbrev Dict := List (String × String)

/-- Python `d.get(k)`: exact-key lookup, `None` when absent. -/
def dget : Dict → String → Option String
  | [], _ => none
  | (k', v') :: rest, k => if k' = k then some v' else dget rest k

/-- Python `d[k] = v`: replace the value in place when the key exists,
append the pair otherwise. -/
def dset : Dict → String → String → Dict
  | [], k, v => [(k, v)]
  | (k', v') :: rest, k, v => if k' = k then (k, v) :: rest else (k', v') :: dset rest k v

/-- Python `d.update(extra)`: assign every pair of `extra` into `d`, in order. -/
def dupdate (d : Dict) (extra : Dict) : Dict :=
  extra.foldl (fun acc p => dset acc p.1 p.2) d

/-- Python truthiness of `d.get(k)`: falsy when the key is absent (`None`)
or when its value is the empty string. -/
def falsy : Option String → Bool
  | none => true
  | some s => s.isEmpty

/-- Modelled from the spec: `generate_headers(browser_mode=False)` from the
toolbelt module (not under `src/`). The spec describes it as generating a set
of realistic browser headers (a realistic `User-Agent`, the Accept family and
`Sec-*` headers), deterministic given its random-seed source; the model fixes
one such generated set. -/
def generate_headers : Dict :=
  [ ("User-Agent", "Mozilla/5.0 (Windows NT 10.0; Win64; x64) AppleWebKit/537.36 (KHTML, like Gecko) Chrome/120.0.0.0 Safari/537.36"),
    ("Accept", "text/html,application/xhtml+xml,application/xml;q=0.9,image/avif,image/webp,*/*;q=0.8"),
    ("Accept-Language", "en-US,en;q=0.9"),
    ("Accept-Encoding", "gzip, deflate, br"),
    ("Sec-Ch-Ua", "\"Not_A Brand\";v=\"8\", \"Chromium\";v=\"120\""),
    ("Sec-Ch-Ua-Mobile", "?0"),
    ("Sec-Ch-Ua-Platform", "\"Windows\""),
    ("Upgrade-Insecure-Requests", "1") ]

/-- The user agent the synthesizer inserts: `generate_headers(browser_mode=False).get('User-Agent')`,
with Python `None` read back as the empty string (the modelled generator always carries one). -/
def synthesizedUA : String := (dget generate_headers "User-Agent").getD ""

/-- Host part of a URL: drop the scheme, keep everything before the first
slash (computed over the character list so that it evaluates by reduction). -/
def hostOf (url : String) : String :=
  let cs := url.data
  let rest := if List.isPrefixOf "https://".data cs then cs.drop 8
    else if List.isPrefixOf "http://".data cs then cs.drop 7 else cs
  String.mk (rest.takeWhile (fun c => c ≠ '/'))

/-- Modelled from the spec: `generate_convincing_referer(url)` from the
toolbelt module (not under `src/`). The spec describes it as a value that
looks like the visitor navigated from a search engine's results page for the
target URL's domain; the model fixes one such results-page URL. -/
def generate_convincing_referer (url : String) : String :=
  "https://www.google.com/search?q=" ++ hostOf url

/-- Embedding of `StaticEngine._headers_job` (value level). `headers or {}`
turns both `None` and the empty dict into an empty dict; the user-agent check
is Python truthiness of the two exact keys `user-agent` and `User-Agent`;
stealth overlays `generate_headers()` and then assigns the `referer` key. -/
def _headers_job (headers : Option Dict) (url : String) (stealth : Bool) : Dict :=
  let headers : Dict := match headers with
    | none => []
    | some d => d
  let headers :=
    if falsy (dget headers "user-agent") && falsy (dget headers "User-Agent")
      then dset headers "User-Agent" synthesizedUA
      else headers
  if stealth then
    dset (dupdate headers generate_headers) "referer" (generate_convincing_referer url)
  else headers

/-- Model of an `httpx` response object as consumed by `_prepare_response`:
the fields the code reads, with `str(...)`/`dict(...)` conversions taken as
identities of the modelled plain values. `encoding` is `Optional[str]`;
`request_headers` stands for `response.request.headers`. -/
structure httpxResponse where
  url : String
  text : String
  content : List Nat
  status_code : Nat
  reason_phrase : String
  encoding : Option String
  cookies : Dict
  headers : Dict
  request_headers : Dict
deriving DecidableEq, Repr

/-- Modelled from the spec: the toolbelt `Response` record (not under `src/`).
The spec lists its fields: url, text, content (byte sequence), status
(integer), reason, encoding (string), cookies, headers, request_headers, and
the adaptor configuration; immutable once constructed. -/
structure Response where
  url : String
  text : String
  content : List Nat
  status : Nat
  reason : String
  encoding : String
  cookies : Dict
  headers : Dict
  request_headers : Dict
  adaptor_arguments : Dict
deriving DecidableEq, Repr

/-- Per-instance state of `StaticEngine`, set by `__init__`. `timeout` is
`Optional[Union[int, float]]`, modelled over the rationals. -/
structure StaticEngine where
  timeout : Option ℚ
  follow_redirects : Bool
  _extra_headers : Dict
  adaptor_arguments : Dict
deriving DecidableEq, Repr

/-- Embedding of `StaticEngine.__init__`: stores `timeout` as given (default
`None`), coerces `follow_redirects` to bool, generates `_extra_headers`, and
replaces a falsy `adaptor_arguments` (`None` or empty dict) by an empty dict. -/
def StaticEngine.init (follow_redirects : Bool) (timeout : Option ℚ)
    (adaptor_arguments : Option Dict) : StaticEngine :=
  { timeout := timeout
    follow_redirects := follow_redirects
    _extra_headers := generate_headers
    adaptor_arguments := match adaptor_arguments with
      | none => []
      | some d => if d.isEmpty then [] else d }

/-- Default construction `StaticEngine()`: all three parameters left at their
defaults (`follow_redirects=True`, `timeout=None`, `adaptor_arguments=None`). -/
def StaticEngine.default : StaticEngine := StaticEngine.init true none none

/-- Embedding of `StaticEngine._prepare_response`: a pure field mapping from
the raw client response, with `response.encoding or 'utf-8'` falling back to
`utf-8` when the declared encoding is `None` or empty. -/
def StaticEngine._prepare_response (e : StaticEngine) (response : httpxResponse) : Response :=
  { url := response.url
    text := response.text
    content := response.content
    status := response.status_code
    reason := response.reason_phrase
    encoding := match response.encoding with
      | none => "utf-8"
      | some s => if s.isEmpty then "utf-8" else s
    cookies := response.cookies
    headers := response.headers
    request_headers := response.request_headers
    adaptor_arguments := e.adaptor_arguments }

/-- What a public operation hands to the underlying `httpx` call: the HTTP
method, the target URL, the synthesized headers, and the engine's configured
redirect policy and timeout. -/
structure DispatchedRequest where
  httpMethod : String
  url : String
  headers : Dict
  follow_redirects : Bool
  timeout : Option ℚ
deriving DecidableEq, Repr

/-- The exception the interpreter raises at the `httpx` call sites: each
method reads the supplied headers with `kwargs.get('headers')` — which does
not remove the key from `kwargs` — and then calls
`httpx.get(url=url, headers=headers, ..., **kwargs)`, so whenever the caller
supplied a headers mapping the explicit `headers=` keyword collides with the
`'headers'` entry re-expanded from `**kwargs`. -/
def typeErrorHeaders : String :=
  "TypeError: got multiple values for keyword argument headers"

/-- Dispatch attempted by `StaticEngine.get`. `kwargs_headers` is `some d`
exactly when the call passed a `headers` kwarg; `_headers_job` runs first
(line 74), then the `httpx.get` call (line 75) raises the duplicate-keyword
`TypeError` if `'headers'` is still in `kwargs`, and otherwise receives the
synthesized headers with the instance's redirect policy and timeout. -/
def StaticEngine.dispatched_get (e : StaticEngine) (url : String)
    (stealthy_headers : Bool) (kwargs_headers : Option Dict) :
    Except String DispatchedRequest :=
  let headers := _headers_job kwargs_headers url stealthy_headers
  match kwargs_headers with
  | some _ => Except.error typeErrorHeaders
  | none => Except.ok
      { httpMethod := "GET", url := url, headers := headers,
        follow_redirects := e.follow_redirects, timeout := e.timeout }

/-- Dispatch attempted by `StaticEngine.post` (lines 86-87); same
duplicate-`headers` `TypeError` path as `StaticEngine.dispatched_get`. -/
def StaticEngine.dispatched_post (e : StaticEngine) (url : String)
    (stealthy_headers : Bool) (kwargs_headers : Option Dict) :
    Except String DispatchedRequest :=
  let headers := _headers_job kwargs_headers url stealthy_headers
  match kwargs_headers with
  | some _ => Except.error typeErrorHeaders
  | none => Except.ok
      { httpMethod := "POST", url := url, headers := headers,
        follow_redirects := e.follow_redirects, timeout := e.timeout }

/-- Dispatch attempted by `StaticEngine.delete` (lines 98-99); same
duplicate-`headers` `TypeError` path as `StaticEngine.dispatched_get`. -/
def StaticEngine.dispatched_delete (e : StaticEngine) (url : String)
    (stealthy_headers : Bool) (kwargs_headers : Option Dict) :
    Except String DispatchedRequest :=
  let headers := _headers_job kwargs_headers url stealthy_headers
  match kwargs_headers with
  | some _ => Except.error typeErrorHeaders
  | none => Except.ok
      { httpMethod := "DELETE", url := url, headers := headers,
        follow_redirects := e.follow_redirects, timeout := e.timeout }

/-- Dispatch attempted by `StaticEngine.put` (lines 110-111); same
duplicate-`headers` `TypeError` path as `StaticEngine.dispatched_get`. -/
def StaticEngine.dispatched_put (e : StaticEngine) (url : String)
    (stealthy_headers : Bool) (kwargs_headers : Option Dict) :
    Except String DispatchedRequest :=
  let headers := _headers_job kwargs_headers url stealthy_headers
  match kwargs_headers with
  | some _ => Except.error typeErrorHeaders
  | none => Except.ok
      { httpMethod := "PUT", url := url, headers := headers,
        follow_redirects := e.follow_redirects, timeout := e.timeout }

/-- Embedding of `StaticEngine.get`. The underlying client is a parameter
`client` mapping a dispatched request to its raw response; the method returns
the possibly updated instance state alongside either the propagated
`TypeError` (when a headers kwarg was supplied) or the normalized `Response`.
The body assigns nothing to `self`, so the state it leaves is the one it
received on both paths. -/
def StaticEngine.get (e : StaticEngine) (url : String) (stealthy_headers : Bool)
    (kwargs_headers : Option Dict) (client : DispatchedRequest → httpxResponse) :
    StaticEngine × Except String Response :=
  match e.dispatched_get url stealthy_headers kwargs_headers with
  | Except.error s => (e, Except.error s)
  | Except.ok req => (e, Except.ok (e._prepare_response (client req)))

/-- Embedding of `StaticEngine.post`; see `StaticEngine.get`. -/
def StaticEngine.post (e : StaticEngine) (url : String) (stealthy_headers : Bool)
    (kwargs_headers : Option Dict) (client : DispatchedRequest → httpxResponse) :
    StaticEngine × Except String Response :=
  match e.dispatched_post url stealthy_headers kwargs_headers with
  | Except.error s => (e, Except.error s)
  | Except.ok req => (e, Except.ok (e._prepare_response (client req)))

/-- Embedding of `StaticEngine.delete`; see `StaticEngine.get`. -/
def StaticEngine.delete (e : StaticEngine) (url : String) (stealthy_headers : Bool)
    (kwargs_headers : Option Dict) (client : DispatchedRequest → httpxResponse) :
    StaticEngine × Except String Response :=
  match e.dispatched_delete url stealthy_headers kwargs_headers with
  | Except.error s => (e, Except.error s)
  | Except.ok req => (e, Except.ok (e._prepare_response (client req)))

/-- Embedding of `StaticEngine.put`; see `StaticEngine.get`. -/
def StaticEngine.put (e : StaticEngine) (url : String) (stealthy_headers : Bool)
    (kwargs_headers : Option Dict) (client : DispatchedRequest → httpxResponse) :
    StaticEngine × Except String Response :=
  match e.dispatched_put url stealthy_headers kwargs_headers with
  | Except.error s => (e, Except.error s)
  | Except.ok req => (e, Except.ok (e._prepare_response (client req)))

/-!
Heap-level embedding of `_headers_job`, used to settle aliasing behaviour:
Python dicts are heap objects mutated in place, so here a headers argument is
an address into a heap of dicts and the function returns the new heap together
with the address of the dict it returns.
-/

/-- Heap of dict objects, addressed by position. -/
abbrev Heap := List Dict

/-- Read the dict stored at an address. -/
def hread (h : Heap) (a : Nat) : Dict := h.getD a []

/-- Overwrite the dict stored at an address. -/
def hwrite (h : Heap) (a : Nat) (d : Dict) : Heap := h.set a d

/-- Allocate a fresh dict object, returning its address. -/
def halloc (h : Heap) (d : Dict) : Heap × Nat := (h ++ [d], h.length)

/-- Embedding of `StaticEngine._headers_job` at heap level. `headers or {}`
allocates a fresh empty dict when the argument is `None` or an empty dict and
otherwise keeps the caller's object; the user-agent assignment and the
stealth `update`/referer assignment mutate that object in place; the object's
address is returned. -/
def _headers_job_heap (h : Heap) (headers : Option Nat) (url : String) (stealth : Bool) :
    Heap × Nat :=
  let (h, a) : Heap × Nat := match headers with
    | none => halloc h []
    | some a => if (hread h a).isEmpty then halloc h [] else (h, a)
  let h :=
    if falsy (dget (hread h a) "user-agent") && falsy (dget (hread h a) "User-Agent")
      then hwrite h a (dset (hread h a) "User-Agent" synthesizedUA)
      else h
  let h :=
    if stealth then
      hwrite h a (dset (dupdate (hread h a) generate_headers) "referer" (generate_convincing_referer url))
    else h
  (h, a)

/-- Substring containment, used to state that the referer references the
target URL's domain. -/
def StrContains (s pat : String) : Prop := ∃ pre post, s = pre ++ pat ++ post

/-- Lower-cased header key (computed over the character list so that it
evaluates by reduction). -/
def lowerKey (s : String) : String := String.mk (s.data.map Char.toLower)

/-- Number of entries of a dict whose key is a letter-case variant of
`User-Agent`. -/
def countUA (d : Dict) : Nat := (d.filter (fun p => lowerKey p.1 == "user-agent")).length

/-! Lemmas about the dict operations. -/

theorem dget_dset_self (d : Dict) (k v : String) : dget (dset d k v) k = some v := by
  induction d with
  | nil => simp [dset, dget]
  | cons p rest ih =>
    by_cases h : p.1 = k
    · simp [dset, h, dget]
    · simp [dset, h, dget, ih]

theorem dget_dset_ne (d : Dict) (k k' v : String) (h : k' ≠ k) :
    dget (dset d k v) k' = dget d k' := by
  have hne : k ≠ k' := fun hh => h hh.symm
  induction d with
  | nil => simp [dset, dget, hne]
  | cons p rest ih =>
    obtain ⟨pk, pv⟩ := p
    by_cases hp : pk = k
    · have h2 : pk ≠ k' := by rw [hp]; exact hne
      simp [dset, hp, dget, hne, h2]
    · by_cases hp' : pk = k'
      · simp [dset, hp, dget, hp', h]
      · simp [dset, hp, dget, hp', ih]

theorem dget_eq_none (d : Dict) (k : String) (h : ∀ p ∈ d, p.1 ≠ k) : dget d k = none := by
  induction d with
  | nil => simp [dget]
  | cons p rest ih =>
    have hp : p.1 ≠ k := h p (by simp)
    simp only [dget, if_neg hp]
    exact ih (fun q hq => h q (by simp [hq]))

theorem dset_eq_append (d : Dict) (k v : String) (h : dget d k = none) :
    dset d k v = d ++ [(k, v)] := by
  induction d with
  | nil => simp [dset]
  | cons p rest ih =>
    by_cases hp : p.1 = k
    · simp [dget, hp] at h
    · simp only [dget, if_neg hp] at h
      simp [dset, hp, ih h]

theorem dupdate_nil (d : Dict) : dupdate d [] = d := rfl

theorem dupdate_cons (d : Dict) (p : String × String) (rest : Dict) :
    dupdate d (p :: rest) = dupdate (dset d p.1 p.2) rest := rfl

theorem dget_dupdate_not_mem (extra : Dict) (d : Dict) (k : String)
    (h : ∀ p ∈ extra, p.1 ≠ k) : dget (dupdate d extra) k = dget d k := by
  induction extra generalizing d with
  | nil => simp [dupdate_nil]
  | cons p rest ih =>
    rw [dupdate_cons, ih _ (fun q hq => h q (by simp [hq])),
      dget_dset_ne _ _ _ _ (fun hh => h p (by simp) hh.symm)]

theorem dget_dupdate_mem (extra : Dict) (d : Dict) (k v : String)
    (hnd : (extra.map Prod.fst).Nodup) (hmem : (k, v) ∈ extra) :
    dget (dupdate d extra) k = some v := by
  induction extra generalizing d with
  | nil => simp at hmem
  | cons p rest ih =>
    rw [dupdate_cons]
    rcases List.mem_cons.mp hmem with heq | hrest
    · have hk : p.1 = k := by rw [← heq]
      have hv : p.2 = v := by rw [← heq]
      have hnotin : ∀ q ∈ rest, q.1 ≠ k := by
        intro q hq hqk
        have hm := (List.nodup_cons.mp hnd).1
        exact hm (hk ▸ hqk ▸ List.mem_map_of_mem Prod.fst hq)
      rw [dget_dupdate_not_mem _ _ _ hnotin, hk, hv, dget_dset_self]
    · exact ih _ (List.nodup_cons.mp hnd).2 hrest

theorem countUA_dset_ne (d : Dict) (k v : String) (hk : (lowerKey k == "user-agent") = false) :
    countUA (dset d k v) = countUA d := by
  induction d with
  | nil => simp [countUA, dset, List.filter, hk]
  | cons p rest ih =>
    by_cases hp : p.1 = k
    · simp [countUA, dset, hp, List.filter, hk] at ih ⊢
    · simp only [countUA, dset, if_neg hp, List.filter] at ih ⊢
      cases hq : (lowerKey p.1 == "user-agent") <;> simp [hq, ih]

theorem countUA_dset_present (d : Dict) (k v : String) (h : (dget d k).isSome) :
    countUA (dset d k v) = countUA d := by
  induction d with
  | nil => simp [dget] at h
  | cons p rest ih =>
    by_cases hp : p.1 = k
    · simp only [countUA, dset, if_pos hp, List.filter, ← hp]
      cases hq : (lowerKey p.1 == "user-agent") <;> simp [hq]
    · simp only [dget, if_neg hp] at h
      simp only [countUA, dset, if_neg hp, List.filter] at ih ⊢
      cases hq : (lowerKey p.1 == "user-agent") <;> simp [hq, ih h]

theorem countUA_append (d₁ d₂ : Dict) : countUA (d₁ ++ d₂) = countUA d₁ + countUA d₂ := by
  simp [countUA, List.filter_append]

theorem countUA_eq_zero (d : Dict) (h : ∀ p ∈ d, lowerKey p.1 ≠ "user-agent") :
    countUA d = 0 := by
  simp only [countUA, List.length_eq_zero, List.filter_eq_nil_iff]
  intro p hp
  simpa using h p hp

/-! Claim theorems. -/

/-- C1 at the failing input:
`get("https://example.com", stealthy_headers=False, headers={"User-Agent": "X"})`
does not succeed — the duplicate-`headers` keyword raises `TypeError` at the
`httpx.get` call and nothing is dispatched — even though the synthesizer had
already computed exactly the claimed header mapping `{"User-Agent": "X"}`
(no addition, removal, change, or referer), which is what the call would have
dispatched absent the slip. -/
theorem get_supplied_ua_typeerror (client : DispatchedRequest → httpxResponse) :
    (StaticEngine.default.get "https://example.com" false
        (some [("User-Agent", "X")]) client).2 = Except.error typeErrorHeaders
    ∧ StaticEngine.default.dispatched_get "https://example.com" false
        (some [("User-Agent", "X")]) = Except.error typeErrorHeaders
    ∧ _headers_job (some [("User-Agent", "X")]) "https://example.com" false
        = [("User-Agent", "X")] := by
  refine ⟨rfl, rfl, ?_⟩
  decide

/-- C2 counterexample: a headers mapping carrying the case variant
`USER-AGENT` has no `User-Agent` entry as far as the synthesizer's exact-key
checks go, so a synthesized `User-Agent` is inserted anyway, refuting the
claim that any letter-case variant suppresses insertion. -/
theorem ua_case_variant_counterexample :
    dget [("USER-AGENT", "X")] "User-Agent" = none
    ∧ _headers_job (some [("USER-AGENT", "X")]) "https://example.com" false
        = [("USER-AGENT", "X"), ("User-Agent", synthesizedUA)] := by
  decide

/-- C2 (amended): the synthesizer skips inserting a `User-Agent` exactly when
one of the two exact keys `user-agent` or `User-Agent` carries a truthy
(non-empty) value; otherwise a synthesized `User-Agent` is assigned. -/
theorem ua_insertion_exact_keys (d : Dict) (url : String) :
    ((falsy (dget d "user-agent") && falsy (dget d "User-Agent")) = false →
      _headers_job (some d) url false = d)
    ∧ ((falsy (dget d "user-agent") && falsy (dget d "User-Agent")) = true →
      _headers_job (some d) url false = dset d "User-Agent" synthesizedUA) := by
  constructor <;> intro h <;> simp [_headers_job, h]

/-- Witness for C2 (amended) at a concrete mapping that carries a truthy
lowercase `user-agent` entry. -/
theorem ua_insertion_exact_keys_witness :
    _headers_job (some [("user-agent", "Y")]) "https://example.com" false
      = [("user-agent", "Y")] :=
  (ua_insertion_exact_keys [("user-agent", "Y")] "https://example.com").1 (by decide)

/-- C10 counterexample: with the lowercase key `user-agent` mapped to the
empty string, the empty entry is not overwritten — it survives, and the
synthesized user agent is added under the separate exact key `User-Agent`. -/
theorem empty_ua_not_overwritten_counterexample :
    dget (_headers_job (some [("user-agent", "")]) "https://example.com" false) "user-agent"
      = some ""
    ∧ _headers_job (some [("user-agent", "")]) "https://example.com" false
        = [("user-agent", ""), ("User-Agent", synthesizedUA)] := by
  decide

/-- C10 (amended): an empty-string user agent under both exact keys is treated
as absent, and a synthesized non-empty user agent is assigned under the exact
key `User-Agent` — overwriting that key's entry when it exists, and added as a
new entry (alongside any empty `user-agent` entry) otherwise. -/
theorem empty_ua_treated_as_absent (d : Dict) (url : String)
    (h1 : falsy (dget d "user-agent") = true) (h2 : falsy (dget d "User-Agent") = true) :
    _headers_job (some d) url false = dset d "User-Agent" synthesizedUA
    ∧ dget (_headers_job (some d) url false) "User-Agent" = some synthesizedUA
    ∧ synthesizedUA ≠ "" := by
  have hj : _headers_job (some d) url false = dset d "User-Agent" synthesizedUA := by
    simp [_headers_job, h1, h2]
  exact ⟨hj, by rw [hj, dget_dset_self], by decide⟩

/-- Witness for C10 (amended) at the mapping carrying `User-Agent` mapped to
the empty string: the empty value is overwritten by the synthesized one. -/
theorem empty_ua_treated_as_absent_witness :
    _headers_job (some [("User-Agent", "")]) "https://example.com" false
      = dset [("User-Agent", "")] "User-Agent" synthesizedUA
    ∧ dget (_headers_job (some [("User-Agent", "")]) "https://example.com" false) "User-Agent"
        = some synthesizedUA
    ∧ synthesizedUA ≠ "" :=
  empty_ua_treated_as_absent [("User-Agent", "")] "https://example.com" (by decide) (by decide)

/-- Shape of the synthesizer's stealth branch: whatever the user-agent step
produced, the result overlays `generate_headers()` onto it and then assigns
the referer key. -/
theorem headers_job_stealth_shape (kh : Option Dict) (url : String) :
    ∃ d1 : Dict, _headers_job kh url true
      = dset (dupdate d1 generate_headers) "referer" (generate_convincing_referer url) :=
  ⟨_, rfl⟩

/-- C3 evaluated against the code: the synthesizer's stealth output maps
every generated stealth header key to its generated value (generated values
win any key collision) and carries a referer entry naming the target URL's
domain — but every call of get/post/put/delete that actually supplies a
headers mapping (the collision case) raises the duplicate-`headers`
`TypeError` before anything is handed to the client; only calls passing no
headers kwarg dispatch, and those dispatch the synthesizer's output. -/
theorem stealth_headers_superset_and_referer (e : StaticEngine) (url : String)
    (d : Dict) :
    e.dispatched_get url true (some d) = Except.error typeErrorHeaders
    ∧ e.dispatched_post url true (some d) = Except.error typeErrorHeaders
    ∧ e.dispatched_delete url true (some d) = Except.error typeErrorHeaders
    ∧ e.dispatched_put url true (some d) = Except.error typeErrorHeaders
    ∧ e.dispatched_get url true none = Except.ok
        ⟨"GET", url, _headers_job none url true, e.follow_redirects, e.timeout⟩
    ∧ (∀ kh : Option Dict, ∀ p ∈ generate_headers,
        dget (_headers_job kh url true) p.1 = some p.2)
    ∧ (∀ kh : Option Dict, dget (_headers_job kh url true) "referer"
        = some (generate_convincing_referer url))
    ∧ StrContains (generate_convincing_referer url) (hostOf url) := by
  refine ⟨rfl, rfl, rfl, rfl, rfl, ?_, ?_, ?_⟩
  · intro kh p hp
    obtain ⟨d1, hd1⟩ := headers_job_stealth_shape kh url
    have hall : ∀ q ∈ generate_headers, q.1 ≠ "referer" := by decide
    rw [hd1, dget_dset_ne _ _ _ _ (hall p hp)]
    exact dget_dupdate_mem _ _ _ _ (by decide) (by simpa using hp)
  · intro kh
    obtain ⟨d1, hd1⟩ := headers_job_stealth_shape kh url
    rw [hd1, dget_dset_self]
  · exact ⟨"https://www.google.com/search?q=", "", by simp [generate_convincing_referer]⟩

/-- Witness for C3 at a concrete call: supplying `{"Accept": "old"}` raises
the `TypeError`, while the synthesizer output for that mapping has the
supplied `Accept` losing the collision with the generated stealth set and a
referer pointing at a search results page for `example.com`. -/
theorem stealth_headers_superset_and_referer_witness :
    StaticEngine.default.dispatched_get "https://example.com/page" true
        (some [("Accept", "old")]) = Except.error typeErrorHeaders
    ∧ dget (_headers_job (some [("Accept", "old")]) "https://example.com/page" true) "Accept"
      = some "text/html,application/xhtml+xml,application/xml;q=0.9,image/avif,image/webp,*/*;q=0.8"
    ∧ dget (_headers_job (some [("Accept", "old")]) "https://example.com/page" true) "referer"
      = some "https://www.google.com/search?q=example.com" :=
  ⟨(stealth_headers_superset_and_referer StaticEngine.default "https://example.com/page"
      [("Accept", "old")]).1,
   (stealth_headers_superset_and_referer StaticEngine.default "https://example.com/page"
      [("Accept", "old")]).2.2.2.2.2.1 (some [("Accept", "old")])
      ("Accept", "text/html,application/xhtml+xml,application/xml;q=0.9,image/avif,image/webp,*/*;q=0.8")
      (by decide),
   by rw [(stealth_headers_superset_and_referer StaticEngine.default "https://example.com/page"
      [("Accept", "old")]).2.2.2.2.2.2.1 (some [("Accept", "old")])]; decide⟩

/-- C4: normalization is a pure total field mapping — status, headers,
cookies and text read back from the constructed `Response` equal the raw
response's fields, and the encoding is the declared one when present and
non-empty, `utf-8` otherwise. -/
theorem prepare_response_roundtrip (e : StaticEngine) (r : httpxResponse) :
    (e._prepare_response r).status = r.status_code
    ∧ (e._prepare_response r).headers = r.headers
    ∧ (e._prepare_response r).cookies = r.cookies
    ∧ (e._prepare_response r).text = r.text
    ∧ (r.encoding = none → (e._prepare_response r).encoding = "utf-8")
    ∧ (∀ s, r.encoding = some s → s.isEmpty = false → (e._prepare_response r).encoding = s) := by
  refine ⟨rfl, rfl, rfl, rfl, ?_, ?_⟩
  · intro h
    simp [StaticEngine._prepare_response, h]
  · intro s hs hn
    simp [StaticEngine._prepare_response, hs, hn]

/-- Witness for C4 at a concrete raw response, with and without a declared
encoding. -/
theorem prepare_response_roundtrip_witness :
    (StaticEngine.default._prepare_response
      ⟨"https://example.com", "body", [104, 105], 200, "OK", some "latin-1",
        [("sid", "1")], [("Content-Type", "text/html")], [("User-Agent", "X")]⟩).encoding
      = "latin-1"
    ∧ (StaticEngine.default._prepare_response
      ⟨"https://example.com", "body", [104, 105], 200, "OK", none,
        [("sid", "1")], [("Content-Type", "text/html")], [("User-Agent", "X")]⟩).encoding
      = "utf-8"
    ∧ (StaticEngine.default._prepare_response
      ⟨"https://example.com", "body", [104, 105], 200, "OK", none,
        [("sid", "1")], [("Content-Type", "text/html")], [("User-Agent", "X")]⟩).status
      = 200 :=
  ⟨(prepare_response_roundtrip StaticEngine.default
      ⟨"https://example.com", "body", [104, 105], 200, "OK", some "latin-1",
        [("sid", "1")], [("Content-Type", "text/html")], [("User-Agent", "X")]⟩).2.2.2.2.2
      "latin-1" rfl (by decide),
   (prepare_response_roundtrip StaticEngine.default
      ⟨"https://example.com", "body", [104, 105], 200, "OK", none,
        [("sid", "1")], [("Content-Type", "text/html")], [("User-Agent", "X")]⟩).2.2.2.2.1 rfl,
   (prepare_response_roundtrip StaticEngine.default
      ⟨"https://example.com", "body", [104, 105], 200, "OK", none,
        [("sid", "1")], [("Content-Type", "text/html")], [("User-Agent", "X")]⟩).1⟩

/-- C5: normalization never branches on the status code — replacing the
status of any raw response only replaces the status of the result — and a
404 response declaring no encoding yields a normal `Response` with status 404
and encoding `utf-8`. -/
theorem error_status_passthrough (e : StaticEngine) (r : httpxResponse) (s : Nat) :
    e._prepare_response { r with status_code := s }
      = { e._prepare_response r with status := s }
    ∧ (e._prepare_response { r with status_code := 404, encoding := none }).status = 404
    ∧ (e._prepare_response { r with status_code := 404, encoding := none }).encoding = "utf-8" :=
  ⟨rfl, rfl, rfl⟩

/-- C6: constructed without a timeout, the engine stores `None`, and every
request it actually dispatches (calls passing a headers kwarg raise before
dispatching) forwards `timeout = None` to the client — no fixed ten-second
default is applied anywhere in the module, contradicting its own docstring. -/
theorem no_default_timeout_applied (url : String) (st : Bool) :
    StaticEngine.default.timeout = none
    ∧ StaticEngine.default.dispatched_get url st none
        = Except.ok ⟨"GET", url, _headers_job none url st, true, none⟩
    ∧ StaticEngine.default.dispatched_post url st none
        = Except.ok ⟨"POST", url, _headers_job none url st, true, none⟩
    ∧ StaticEngine.default.dispatched_delete url st none
        = Except.ok ⟨"DELETE", url, _headers_job none url st, true, none⟩
    ∧ StaticEngine.default.dispatched_put url st none
        = Except.ok ⟨"PUT", url, _headers_job none url st, true, none⟩ :=
  ⟨rfl, rfl, rfl, rfl, rfl⟩

/-- C8: every public operation returns the instance state it received — on
the dispatching path and on the raising path alike — so timeout, redirect
policy and adaptor arguments are written only at construction and are
unchanged by get/post/put/delete. -/
theorem methods_preserve_config (e : StaticEngine) (url : String) (st : Bool)
    (kh : Option Dict) (client : DispatchedRequest → httpxResponse) :
    (e.get url st kh client).1 = e
    ∧ (e.post url st kh client).1 = e
    ∧ (e.delete url st kh client).1 = e
    ∧ (e.put url st kh client).1 = e
    ∧ (e.get url st kh client).1.timeout = e.timeout
    ∧ (e.get url st kh client).1.follow_redirects = e.follow_redirects
    ∧ (e.get url st kh client).1.adaptor_arguments = e.adaptor_arguments := by
  have hget : (e.get url st kh client).1 = e := by
    cases kh <;> rfl
  have hpost : (e.post url st kh client).1 = e := by
    cases kh <;> rfl
  have hdel : (e.delete url st kh client).1 = e := by
    cases kh <;> rfl
  have hput : (e.put url st kh client).1 = e := by
    cases kh <;> rfl
  exact ⟨hget, hpost, hdel, hput, by rw [hget], by rw [hget], by rw [hget]⟩

theorem dget_dset_isSome_mono (d : Dict) (k v k' : String) (h : (dget d k').isSome) :
    (dget (dset d k v) k').isSome := by
  by_cases hk : k = k'
  · rw [hk, dget_dset_self]
    rfl
  · rw [dget_dset_ne _ _ _ _ (fun hh => hk hh.symm)]
    exact h

theorem countUA_dupdate_of (extra : Dict) (d : Dict)
    (hx : ∀ p ∈ extra, (lowerKey p.1 == "user-agent") = false ∨ (dget d p.1).isSome) :
    countUA (dupdate d extra) = countUA d := by
  induction extra generalizing d with
  | nil => rfl
  | cons p rest ih =>
    rw [dupdate_cons]
    have hstep : countUA (dset d p.1 p.2) = countUA d := by
      rcases hx p (by simp) with hk | hk
      · exact countUA_dset_ne _ _ _ hk
      · exact countUA_dset_present _ _ _ hk
    rw [ih _ (fun q hq => ?_), hstep]
    rcases hx q (by simp [hq]) with hk | hk
    · exact Or.inl hk
    · exact Or.inr (dget_dset_isSome_mono _ _ _ _ hk)

/-- Overlaying the generated stealth set keeps the number of user-agent
entries of a dict that already carries the exact key `User-Agent`, and
leaves the generated user agent as that key's value. -/
theorem countUA_dupdate_gen (d1 : Dict) (hs : (dget d1 "User-Agent").isSome) :
    countUA (dupdate d1 generate_headers) = countUA d1
    ∧ dget (dupdate d1 generate_headers) "User-Agent" = some synthesizedUA := by
  constructor
  · refine countUA_dupdate_of _ _ (fun p hp => ?_)
    by_cases hk : (lowerKey p.1 == "user-agent") = false
    · exact Or.inl hk
    · have hkey : ∀ q ∈ generate_headers, (lowerKey q.1 == "user-agent") = true → q.1 = "User-Agent" := by
        decide
      right
      rw [hkey p hp (by revert hk; cases lowerKey p.1 == "user-agent" <;> simp)]
      exact hs
  · exact dget_dupdate_mem _ _ _ _ (by decide) (by decide)

/-- Core of C7: when the supplied mapping has no key that is a letter-case
variant of `User-Agent`, the synthesizer's output carries exactly one
user-agent entry, under the exact key `User-Agent`, holding the synthesized
value — for both stealth settings. -/
theorem headers_job_single_ua (d : Dict) (url : String) (st : Bool)
    (h : ∀ p ∈ d, lowerKey p.1 ≠ "user-agent") :
    countUA (_headers_job (some d) url st) = 1
    ∧ dget (_headers_job (some d) url st) "User-Agent" = some synthesizedUA := by
  have hga : dget d "user-agent" = none := by
    refine dget_eq_none d _ (fun p hp he => h p hp ?_)
    rw [he]
    decide
  have hUA : dget d "User-Agent" = none := by
    refine dget_eq_none d _ (fun p hp he => h p hp ?_)
    rw [he]
    decide
  have h1 : _headers_job (some d) url st
      = if st then
          dset (dupdate (dset d "User-Agent" synthesizedUA) generate_headers) "referer"
            (generate_convincing_referer url)
        else dset d "User-Agent" synthesizedUA := by
    simp [_headers_job, hga, hUA, falsy]
  have hc1 : countUA (dset d "User-Agent" synthesizedUA) = 1 := by
    rw [dset_eq_append d _ _ hUA, countUA_append, countUA_eq_zero d h]
    decide
  have hg1 : dget (dset d "User-Agent" synthesizedUA) "User-Agent" = some synthesizedUA :=
    dget_dset_self _ _ _
  obtain ⟨hgc, hgg⟩ := countUA_dupdate_gen (dset d "User-Agent" synthesizedUA)
    (by rw [hg1]; rfl)
  cases st with
  | false =>
    rw [h1]
    exact ⟨hc1, hg1⟩
  | true =>
    rw [h1]
    simp only [if_pos rfl, reduceIte]
    refine ⟨?_, ?_⟩
    · rw [countUA_dset_ne _ _ _ (by decide), hgc, hc1]
    · rw [dget_dset_ne _ _ _ _ (by decide), hgg]

/-- C7 evaluated against the code: for a supplied mapping with no letter-case
variant of `User-Agent`, the synthesizer does compute a mapping with exactly
one user-agent entry holding the synthesized value — but every call that
actually supplies such a mapping raises the duplicate-`headers` `TypeError`
at the `httpx` call and hands nothing to the client; only calls passing no
headers kwarg dispatch, and their dispatched mapping has exactly one
user-agent entry holding the synthesized value. -/
theorem single_synthesized_ua (e : StaticEngine) (d : Dict) (url : String) (st : Bool)
    (h : ∀ p ∈ d, lowerKey p.1 ≠ "user-agent") :
    countUA (_headers_job (some d) url st) = 1
    ∧ dget (_headers_job (some d) url st) "User-Agent" = some synthesizedUA
    ∧ e.dispatched_get url st (some d) = Except.error typeErrorHeaders
    ∧ e.dispatched_post url st (some d) = Except.error typeErrorHeaders
    ∧ e.dispatched_delete url st (some d) = Except.error typeErrorHeaders
    ∧ e.dispatched_put url st (some d) = Except.error typeErrorHeaders
    ∧ e.dispatched_get url st none = Except.ok
        ⟨"GET", url, _headers_job none url st, e.follow_redirects, e.timeout⟩
    ∧ countUA (_headers_job none url st) = 1
    ∧ dget (_headers_job none url st) "User-Agent" = some synthesizedUA := by
  obtain ⟨hc, hg⟩ := headers_job_single_ua d url st h
  obtain ⟨hc0, hg0⟩ := headers_job_single_ua [] url st (by simp)
  exact ⟨hc, hg, rfl, rfl, rfl, rfl, rfl, hc0, hg0⟩

/-- Witness for C7 at a concrete stealth call with a supplied mapping that
has no user-agent entry. -/
theorem single_synthesized_ua_witness :
    countUA (_headers_job (some [("Accept", "old")]) "https://example.com" true) = 1
    ∧ dget (_headers_job (some [("Accept", "old")]) "https://example.com" true) "User-Agent"
        = some synthesizedUA
    ∧ StaticEngine.default.dispatched_get "https://example.com" true
        (some [("Accept", "old")]) = Except.error typeErrorHeaders
    ∧ StaticEngine.default.dispatched_post "https://example.com" true
        (some [("Accept", "old")]) = Except.error typeErrorHeaders
    ∧ StaticEngine.default.dispatched_delete "https://example.com" true
        (some [("Accept", "old")]) = Except.error typeErrorHeaders
    ∧ StaticEngine.default.dispatched_put "https://example.com" true
        (some [("Accept", "old")]) = Except.error typeErrorHeaders
    ∧ StaticEngine.default.dispatched_get "https://example.com" true none = Except.ok
        ⟨"GET", "https://example.com", _headers_job none "https://example.com" true,
          StaticEngine.default.follow_redirects, StaticEngine.default.timeout⟩
    ∧ countUA (_headers_job none "https://example.com" true) = 1
    ∧ dget (_headers_job none "https://example.com" true) "User-Agent" = some synthesizedUA :=
  single_synthesized_ua StaticEngine.default [("Accept", "old")]
    "https://example.com" true (by decide)

theorem hread_hwrite (h : Heap) (a : Nat) (d : Dict) (ha : a < h.length) :
    hread (hwrite h a d) a = d := by
  simp [hread, hwrite, List.getD, List.getElem?_set_self ha]

theorem hwrite_length (h : Heap) (a : Nat) (d : Dict) :
    (hwrite h a d).length = h.length := by
  simp [hwrite]

/-- C9: on a non-empty headers object the synthesizer works in place — the
address it returns is the caller's own object, and after the call that object
holds exactly what the value-level synthesizer computes (so with stealth on,
or with no user agent supplied, the caller's own mapping now carries the
synthesized keys). -/
theorem headers_job_mutates_in_place (h : Heap) (a : Nat) (url : String) (st : Bool)
    (ha : a < h.length) (hne : hread h a ≠ []) :
    (_headers_job_heap h (some a) url st).2 = a
    ∧ hread (_headers_job_heap h (some a) url st).1 a
        = _headers_job (some (hread h a)) url st := by
  have hie : (hread h a).isEmpty = false := by
    rw [Bool.eq_false_iff]
    intro hh
    exact hne (List.isEmpty_iff.mp hh)
  by_cases hc : (falsy (dget (hread h a) "user-agent")
      && falsy (dget (hread h a) "User-Agent")) = true
  · cases st with
    | true =>
      have h2 : a < (hwrite h a (dset (hread h a) "User-Agent" synthesizedUA)).length := by
        rw [hwrite_length]
        exact ha
      simp [_headers_job_heap, _headers_job, hie, hc,
        hread_hwrite _ _ _ ha, hread_hwrite _ _ _ h2]
    | false =>
      simp [_headers_job_heap, _headers_job, hie, hc, hread_hwrite _ _ _ ha]
  · cases st with
    | true =>
      simp [_headers_job_heap, _headers_job, hie, hc, hread_hwrite _ _ _ ha]
    | false =>
      simp [_headers_job_heap, _headers_job, hie, hc]

/-- Witness for C9 at a one-object heap holding a non-empty headers dict. -/
theorem headers_job_mutates_in_place_witness :
    (_headers_job_heap [[("Accept", "old")]] (some 0) "https://example.com" true).2 = 0
    ∧ hread (_headers_job_heap [[("Accept", "old")]] (some 0) "https://example.com" true).1 0
        = _headers_job (some (hread [[("Accept", "old")]] 0)) "https://example.com" true :=
  headers_job_mutates_in_place [[("Accept", "old")]] 0 "https://example.com" true
    (by decide) (by decide)

end Scrapling
